import Mathlib

/-!
Verification of the phone-number normalization engine and configuration
registry of `src/app/components/phone-engine-demo.tsx`.

The engine (`phoneEngine`, lines 22-64 of the source) and the registry
handlers (`handleAddConfig`, `handleRemoveConfig`, `setDefaultConfig`,
lines 92-106 and 75) are embedded shallowly below.  The external
phone-number parser (libphonenumber-js) is an opaque collaborator: it is
passed to the embedded engine as an explicit function argument of type
`ParseFn`, so every theorem quantifies over the parser's behavior.

JavaScript `undefined` is modelled by `Option.none`.  In particular the
registry's entry type (`interface CountryConfig`, source lines 13-16)
declares only `trunkPrefix` and `addLeadingZero`; after the wholesale
replacement `config = countryConfigs[phoneNumber.country]` (source line
45) the effective config therefore has no `country` property, which the
embedding records as `country := none`.
-/

namespace PhoneNormalizer

/-- Embeds `interface CountryConfig` (source lines 13-16): the value type of
registry entries — a trunk prefix string and a leading-zero flag, and no
`country` field. -/
structure CountryConfig where
  trunkPrefix : String
  addLeadingZero : Bool
deriving DecidableEq

/-- Embeds `interface Configs` (source lines 18-20): a string-keyed mapping
from country identifier to `CountryConfig`.  A JavaScript object is embedded
as an association list with lookup by first match; `upsertConfig` below keeps
keys unique. -/
abbrev Configs := List (String × CountryConfig)

/-- The caller-supplied `options` parameter of `phoneEngine` (source line 22):
a partial config, each field possibly absent. -/
structure EngineOptions where
  country : Option String
  trunkPrefix : Option String
  addLeadingZero : Option Bool
deriving DecidableEq

/-- The effective config built at source lines 24-29 and possibly replaced at
line 45.  `country : Option String` because after the replacement by a
registry `CountryConfig` entry (which has no `country` field) the property is
JavaScript `undefined`, modelled as `none`. -/
structure EffectiveConfig where
  country : Option String
  trunkPrefix : String
  addLeadingZero : Bool
deriving DecidableEq

/-- The structured number produced by the external parser.  `isValid`,
`isPossible` and `e164` embed the method calls `phoneNumber.isValid()`,
`phoneNumber.isPossible()` and `phoneNumber.format('E.164')` as fields, since
the source queries them as pure observations of the parsed value. -/
structure ParsedPhoneNumber where
  country : Option String
  nationalNumber : String
  isValid : Bool
  isPossible : Bool
  e164 : String
deriving DecidableEq

/-- The external parser capability `parsePhoneNumber(number, hintCountry)`
(source line 34): it may throw (`Except.error`), return a falsy value
(`Except.ok none`), or return a structured number. -/
abbrev ParseFn := String → String → Except Unit (Option ParsedPhoneNumber)

/-- The result object returned by `phoneEngine` (source lines 37, 41,
59-63). -/
structure NormalizationResult where
  e164 : String
  forAsterisk : String
  isValid : Bool
deriving DecidableEq

/-- Embeds the overlay at source lines 24-29:
`{country: "", trunkPrefix: "", addLeadingZero: false, ...options}` — a field
present in `options` wins, an absent field keeps the default. -/
def mergeOptions (options : EngineOptions) : EffectiveConfig :=
  { country := some (options.country.getD "")
    trunkPrefix := options.trunkPrefix.getD ""
    addLeadingZero := options.addLeadingZero.getD false }

/-- Embeds the object lookup `countryConfigs[c]` (source lines 44-45). -/
def configLookup (countryConfigs : Configs) (c : String) : Option CountryConfig :=
  (countryConfigs.find? (fun p => p.1 == c)).map (fun p => p.2)

/-- Embeds source lines 44-46: if the parsed number's country is a key of
`countryConfigs`, the entry replaces the whole effective config.  The entry
has no `country` field, so the replaced config's `country` is `none`
(JavaScript `undefined`).  A parsed number with no country cannot fire the
override, since registry keys are country identifiers. -/
def overrideConfig (config : EffectiveConfig) (countryConfigs : Configs)
    (pn : ParsedPhoneNumber) : EffectiveConfig :=
  match pn.country with
  | some c =>
    match configLookup countryConfigs c with
    | some entry =>
      { country := none
        trunkPrefix := entry.trunkPrefix
        addLeadingZero := entry.addLeadingZero }
    | none => config
  | none => config

/-- Embeds the one-character check `processedNumber.startsWith("0")` (source
line 50): the string's first character is `'0'`. -/
def startsWithZero (s : String) : Bool :=
  s.data.head? == some '0'

/-- Embeds source lines 50-52: prepend one `'0'` when the flag is set and the
number does not already start with `'0'`. -/
def applyLeadingZero (addLeadingZero : Bool) (nationalNumber : String) : String :=
  if addLeadingZero && !(startsWithZero nationalNumber) then
    "0" ++ nationalNumber
  else
    nationalNumber

/-- Embeds `number.replaceAll(' ', '')` (source line 61): every space
character (U+0020, and only that character) is removed. -/
def removeSpaces (s : String) : String :=
  String.mk (s.data.filter (fun c => c != ' '))

/-- Modelled from the spec's words, not from the source: "raw with all
whitespace characters removed".  Used only to compare the spec's description
with the source's `removeSpaces`. -/
def stripWhitespace (s : String) : String :=
  String.mk (s.data.filter (fun c => !c.isWhitespace))

/-- Embeds `phoneEngine` (source lines 22-64).  The external parser is an
explicit argument; the other three parameters mirror the source's
`(number, options, countryConfigs)`. -/
def phoneEngine (parse : ParseFn) (number : String) (options : EngineOptions)
    (countryConfigs : Configs) : NormalizationResult :=
  let config0 := mergeOptions options
  match parse number (config0.country.getD "") with
  | Except.error _ => { e164 := "", forAsterisk := "", isValid := false }
  | Except.ok none => { e164 := "", forAsterisk := "", isValid := false }
  | Except.ok (some phoneNumber) =>
    let config := overrideConfig config0 countryConfigs phoneNumber
    let processedNumber := applyLeadingZero config.addLeadingZero phoneNumber.nationalNumber
    let forAsterisk :=
      if config.trunkPrefix = "" then processedNumber
      else config.trunkPrefix ++ processedNumber
    let isValid := phoneNumber.isValid && phoneNumber.isPossible
    { e164 := if isValid then phoneNumber.e164 else "---"
      forAsterisk :=
        if isValid && (phoneNumber.country == config.country) then forAsterisk
        else removeSpaces number
      isValid := isValid }

/-- The fallback default country `'EG'` (source line 104). -/
def fallbackCountry : String := "EG"

/-- The registry state: the `countryConfigs` mapping together with the
`defaultConfig` selector (source lines 74-75). -/
structure ConfigRegistry where
  entries : Configs
  defaultCountry : String
deriving DecidableEq

/-- Embeds `handleAddConfig` (source lines 92-97):
`{...countryConfigs, [country]: cfg}` inserts or replaces the entry for
`country` (last write wins). -/
def upsertConfig (r : ConfigRegistry) (country : String) (cfg : CountryConfig) :
    ConfigRegistry :=
  { r with entries := r.entries.filter (fun p => p.1 != country) ++ [(country, cfg)] }

/-- Embeds `handleRemoveConfig` (source lines 99-106): delete the entry for
`country`; if the default pointed at it, reset the default to `'EG'`. -/
def removeConfig (r : ConfigRegistry) (country : String) : ConfigRegistry :=
  { entries := r.entries.filter (fun p => p.1 != country)
    defaultCountry :=
      if r.defaultCountry = country then fallbackCountry else r.defaultCountry }

/-- Embeds `setDefaultConfig` (source lines 75 and 220): set the default
country unconditionally. -/
def setDefaultConfig (r : ConfigRegistry) (country : String) : ConfigRegistry :=
  { r with defaultCountry := country }

/-! Concrete fixtures used by witnesses and counterexamples. -/

/-- A structured number as libphonenumber-js resolves `"+20 101 234 5678"`:
country `EG`, national part `1012345678`, valid and possible. -/
def egParsed : ParsedPhoneNumber :=
  { country := some "EG", nationalNumber := "1012345678",
    isValid := true, isPossible := true, e164 := "+201012345678" }

/-- A parser behavior that resolves every input to `egParsed`. -/
def egParse : ParseFn := fun _ _ => Except.ok (some egParsed)

/-- The registry of the spec's worked example: `EG` mapped to
trunk prefix `"0"`, no leading zero. -/
def egRegistry : Configs := [("EG", { trunkPrefix := "0", addLeadingZero := false })]

/-- A structured number as libphonenumber-js resolves a US number: used to
exercise the country-mismatch branch. -/
def usParsed : ParsedPhoneNumber :=
  { country := some "US", nationalNumber := "4155550100",
    isValid := true, isPossible := true, e164 := "+14155550100" }

/-- A parser behavior that resolves every input to `usParsed`. -/
def usParse : ParseFn := fun _ _ => Except.ok (some usParsed)

/-- A parser behavior that throws on every input (the malformed-input
case of source lines 33-38). -/
def rejectParse : ParseFn := fun _ _ => Except.error ()

/-- A parser behavior that returns no structured number (the falsy-result
case of source lines 40-42). -/
def noneParse : ParseFn := fun _ _ => Except.ok none

/-! Helper lemmas shared between claims. -/

/-- Prepending `"0"` puts `'0'` in front of the character data. -/
theorem data_zero_append (n : String) : ("0" ++ n).data = '0' :: n.data := by
  rw [String.data_append]
  rfl

/-- A string of the form `"0" ++ n` starts with `'0'`. -/
theorem startsWithZero_zero_append (n : String) : startsWithZero ("0" ++ n) = true := by
  simp [startsWithZero, data_zero_append]

/-- A `find?`-miss means the filter deleting that key keeps every element. -/
theorem filter_eq_self_of_lookup_none (l : Configs) (c : String)
    (h : configLookup l c = none) : l.filter (fun p => p.1 != c) = l := by
  rw [List.filter_eq_self]
  intro a ha
  rw [configLookup, Option.map_eq_none', List.find?_eq_none] at h
  simpa using h a ha

/-! Claim theorems. -/

/-- C1: if the parser resolves the raw string to a country that is a key of
the registry, the registry entry wholly replaces the effective config, so
the engine's whole result — in particular `forAsterisk` — is independent of
the caller-supplied trunk prefix and leading-zero flag (the caller's country
hint is held fixed, since it feeds the parse itself). -/
theorem phoneEngine_override_wholesale (parse : ParseFn) (number : String)
    (country : Option String) (t1 t2 : Option String) (z1 z2 : Option Bool)
    (countryConfigs : Configs) (pn : ParsedPhoneNumber) (c : String)
    (entry : CountryConfig)
    (hparse : parse number ((mergeOptions ⟨country, t1, z1⟩).country.getD "") =
      Except.ok (some pn))
    (hc : pn.country = some c)
    (hentry : configLookup countryConfigs c = some entry) :
    phoneEngine parse number ⟨country, t1, z1⟩ countryConfigs =
      phoneEngine parse number ⟨country, t2, z2⟩ countryConfigs := by
  simp only [mergeOptions, Option.getD_some] at hparse
  simp [phoneEngine, mergeOptions, hparse, overrideConfig, hc, hentry]

/-- C1 witness: at the worked example, changing the caller's trunk prefix to
`"9"` and the leading-zero flag to `true` does not change the result. -/
theorem phoneEngine_override_wholesale_witness :
    phoneEngine egParse "+20 101 234 5678" ⟨some "EG", some "9", some true⟩ egRegistry =
      phoneEngine egParse "+20 101 234 5678" ⟨some "EG", none, none⟩ egRegistry :=
  phoneEngine_override_wholesale egParse "+20 101 234 5678" (some "EG")
    (some "9") none (some true) none egRegistry egParsed "EG"
    ⟨"0", false⟩ rfl rfl rfl

/-- C2 counterexample: the claim says the fallback dial format is the raw
input with all whitespace removed, but the source (line 61) removes only
space characters.  On a raw input containing a tab, parsed as a valid and
possible US number under an `EG` caller config (a country mismatch), the
returned `forAsterisk` keeps the tab and differs from the
whitespace-stripped raw input. -/
theorem phoneEngine_mismatch_whitespace_cex :
    usParsed.isValid = true ∧ usParsed.isPossible = true ∧
    usParsed.country ≠
      (overrideConfig (mergeOptions ⟨some "EG", none, none⟩) [] usParsed).country ∧
    (phoneEngine usParse "+1\t4155550100" ⟨some "EG", none, none⟩ []).forAsterisk ≠
      stripWhitespace "+1\t4155550100" :=
  ⟨rfl, rfl, by decide, by decide⟩

/-- C2 (amended: "whitespace characters" -> "space characters"): for a
validly parsed, possible number whose detected country differs from the
effective config's country after any registry override, `forAsterisk` is the
raw input with all space characters removed, whatever the trunk prefix and
leading-zero settings. -/
theorem phoneEngine_mismatch_dialFormat (parse : ParseFn) (number : String)
    (options : EngineOptions) (countryConfigs : Configs) (pn : ParsedPhoneNumber)
    (hparse : parse number ((mergeOptions options).country.getD "") =
      Except.ok (some pn))
    (hvalid : pn.isValid = true) (hposs : pn.isPossible = true)
    (hne : pn.country ≠ (overrideConfig (mergeOptions options) countryConfigs pn).country) :
    (phoneEngine parse number options countryConfigs).forAsterisk =
      removeSpaces number := by
  simp [phoneEngine, hparse, hvalid, hposs, hne]

/-- C2 witness: the spec's third worked example — a US number under an `EG`
caller config with an empty registry falls back to the space-stripped raw
input. -/
theorem phoneEngine_mismatch_dialFormat_witness :
    (phoneEngine usParse "+1 415 555 0100" ⟨some "EG", none, none⟩ []).forAsterisk =
      removeSpaces "+1 415 555 0100" :=
  phoneEngine_mismatch_dialFormat usParse "+1 415 555 0100" ⟨some "EG", none, none⟩
    [] usParsed rfl rfl rfl (by decide)

/-- C3 counterexample: at the spec's worked example the engine does not
return the claimed `dialFormat = "01012345678"`.  The registry entry for
`EG` replaces the whole config and carries no `country` field, so the
country-match gate fails and the raw input minus spaces is returned
instead. -/
theorem phoneEngine_egExample_cex :
    (phoneEngine egParse "+20 101 234 5678" ⟨some "EG", none, none⟩ egRegistry).forAsterisk ≠
      "01012345678" := by decide

/-- C3 (amended: `dialFormat` is `"+201012345678"`, the raw input with
spaces removed, not `"01012345678"`): on raw `"+20 101 234 5678"` with
caller country `EG` and registry `EG -> {trunkPrefix := "0",
addLeadingZero := false}`, where the parser resolves a valid and possible
`EG` number with national part `"1012345678"`, the engine returns
`e164 = "+201012345678"`, `forAsterisk = "+201012345678"` and
`isValid = true`. -/
theorem phoneEngine_egExample :
    phoneEngine egParse "+20 101 234 5678" ⟨some "EG", none, none⟩ egRegistry =
      { e164 := "+201012345678", forAsterisk := "+201012345678", isValid := true } := by
  decide

/-- C4 counterexample: when the parser throws, the engine returns
`e164 = ""` (source line 37), not the `"---"` sentinel the claim states. -/
theorem phoneEngine_parse_error_cex :
    (phoneEngine rejectParse "abc" ⟨some "EG", none, none⟩ []).e164 ≠ "---" := by
  decide

/-- C4 (amended: on malformed input `e164` is `""`, not `"---"`): the
engine is a total function — the embedding returns a result for every
input by construction — and when the parser rejects the input the result is
`{e164 := "", forAsterisk := "", isValid := false}`. -/
theorem phoneEngine_parse_error (parse : ParseFn) (number : String)
    (options : EngineOptions) (countryConfigs : Configs)
    (h : parse number ((mergeOptions options).country.getD "") = Except.error ()) :
    phoneEngine parse number options countryConfigs =
      { e164 := "", forAsterisk := "", isValid := false } := by
  simp [phoneEngine, h]

/-- C4 witness: a parser that throws on `"abc"` yields the empty-string
invalid result. -/
theorem phoneEngine_parse_error_witness :
    phoneEngine rejectParse "abc" ⟨some "EG", none, none⟩ [] =
      { e164 := "", forAsterisk := "", isValid := false } :=
  phoneEngine_parse_error rejectParse "abc" ⟨some "EG", none, none⟩ [] rfl

/-- C5: whether the parser throws or returns no structured number, the
engine short-circuits with exactly
`{e164 := "", forAsterisk := "", isValid := false}`; no error crosses the
boundary (the embedded engine is total). -/
theorem phoneEngine_shortCircuit (parse : ParseFn) (number : String)
    (options : EngineOptions) (countryConfigs : Configs)
    (h : parse number ((mergeOptions options).country.getD "") = Except.error () ∨
         parse number ((mergeOptions options).country.getD "") = Except.ok none) :
    phoneEngine parse number options countryConfigs =
      { e164 := "", forAsterisk := "", isValid := false } := by
  cases h with
  | inl h => simp [phoneEngine, h]
  | inr h => simp [phoneEngine, h]

/-- C5 witness: a parser that returns no structured number for `"123"`
yields the short-circuit result. -/
theorem phoneEngine_shortCircuit_witness :
    phoneEngine noneParse "123" ⟨some "EG", none, none⟩ [] =
      { e164 := "", forAsterisk := "", isValid := false } :=
  phoneEngine_shortCircuit noneParse "123" ⟨some "EG", none, none⟩ [] (Or.inr rfl)

/-- C6: for every successfully parsed number, the result's `isValid` is the
conjunction of the parsed number's validity and possibility flags, and
`e164` is the parser's E.164 formatting when that conjunction holds and the
`"---"` sentinel otherwise. -/
theorem phoneEngine_validity_e164 (parse : ParseFn) (number : String)
    (options : EngineOptions) (countryConfigs : Configs) (pn : ParsedPhoneNumber)
    (h : parse number ((mergeOptions options).country.getD "") = Except.ok (some pn)) :
    (phoneEngine parse number options countryConfigs).isValid =
      (pn.isValid && pn.isPossible) ∧
    (phoneEngine parse number options countryConfigs).e164 =
      (if pn.isValid && pn.isPossible then pn.e164 else "---") := by
  simp [phoneEngine, h]

/-- C6 witness: at the worked `EG` example both components hold. -/
theorem phoneEngine_validity_e164_witness :
    (phoneEngine egParse "+20 101 234 5678" ⟨some "EG", none, none⟩ []).isValid =
      (egParsed.isValid && egParsed.isPossible) ∧
    (phoneEngine egParse "+20 101 234 5678" ⟨some "EG", none, none⟩ []).e164 =
      (if egParsed.isValid && egParsed.isPossible then egParsed.e164 else "---") :=
  phoneEngine_validity_e164 egParse "+20 101 234 5678" ⟨some "EG", none, none⟩ []
    egParsed rfl

/-- C7: with the leading-zero flag set, a national number that does not
start with `'0'` gets exactly one `'0'` prepended and one that already
starts with `'0'` is unchanged; the step is idempotent (never
double-prepends), for every string. -/
theorem applyLeadingZero_spec (n : String) :
    applyLeadingZero true n = (if startsWithZero n then n else "0" ++ n) ∧
    applyLeadingZero true (applyLeadingZero true n) = applyLeadingZero true n := by
  refine ⟨?_, ?_⟩ <;> by_cases h : startsWithZero n = true
  · simp [applyLeadingZero, h]
  · simp [applyLeadingZero, h]
  · simp [applyLeadingZero, h]
  · simp [applyLeadingZero, h, startsWithZero_zero_append]

/-- C8: removing the entry keyed by the current default country resets the
default to the fallback constant `'EG'`. -/
theorem removeConfig_default_reset (r : ConfigRegistry) (country : String)
    (h : r.defaultCountry = country) :
    (removeConfig r country).defaultCountry = fallbackCountry := by
  simp [removeConfig, h]

/-- C8 witness: removing `US` while `US` is the default resets the default
to the fallback. -/
theorem removeConfig_default_reset_witness :
    (removeConfig ⟨[("US", ⟨"1", false⟩)], "US"⟩ "US").defaultCountry = fallbackCountry :=
  removeConfig_default_reset ⟨[("US", ⟨"1", false⟩)], "US"⟩ "US" rfl

/-- C9: the registry operations are total functions of the embedding (no
failure mode), and removing a key with no entry leaves the entries mapping
unchanged — a no-op, not an error. -/
theorem removeConfig_missing_noop (r : ConfigRegistry) (country : String)
    (h : configLookup r.entries country = none) :
    (removeConfig r country).entries = r.entries :=
  filter_eq_self_of_lookup_none r.entries country h

/-- C9 witness: removing the absent key `FR` from a registry holding only
`EG` leaves the entries unchanged. -/
theorem removeConfig_missing_noop_witness :
    (removeConfig ⟨[("EG", ⟨"0", false⟩)], "EG"⟩ "FR").entries =
      ConfigRegistry.entries ⟨[("EG", ⟨"0", false⟩)], "EG"⟩ :=
  removeConfig_missing_noop ⟨[("EG", ⟨"0", false⟩)], "EG"⟩ "FR" (by decide)

/-- C10: a registry entry has exactly the declared `CountryConfig` shape (no
`country` field), so whenever the post-parse override fires the replaced
config's country is absent, the country-match gate cannot succeed, and
`forAsterisk` is the raw input with space characters removed — never the
trunk-prefixed candidate. -/
theorem phoneEngine_override_strips_raw (parse : ParseFn) (number : String)
    (options : EngineOptions) (countryConfigs : Configs) (pn : ParsedPhoneNumber)
    (c : String) (entry : CountryConfig)
    (hparse : parse number ((mergeOptions options).country.getD "") =
      Except.ok (some pn))
    (hc : pn.country = some c)
    (hentry : configLookup countryConfigs c = some entry) :
    (phoneEngine parse number options countryConfigs).forAsterisk =
      removeSpaces number := by
  simp [phoneEngine, hparse, overrideConfig, hc, hentry]

/-- C10 witness: at the worked `EG` example with the `EG` registry entry the
dial format is the space-stripped raw input. -/
theorem phoneEngine_override_strips_raw_witness :
    (phoneEngine egParse "+20 101 234 5678" ⟨some "EG", none, none⟩ egRegistry).forAsterisk =
      removeSpaces "+20 101 234 5678" :=
  phoneEngine_override_strips_raw egParse "+20 101 234 5678" ⟨some "EG", none, none⟩
    egRegistry egParsed "EG" ⟨"0", false⟩ rfl rfl rfl

end PhoneNormalizer
